import Mathlib

/-!
Verification of the sports-prediction backend (Node/TypeScript + PostgreSQL).

The development shallowly embeds the data model and the operations of the
repository:

* `Event` / `Prediction` mirror the rows of the `events` / `predictions`
  tables after migration `003_move_is_archived.sql` (the archival flag lives
  on events; predictions have none).
* Timestamps are modelled as `Int` epoch milliseconds (the code compares
  dates with `<` / `>=` and computes cutoffs as
  `Date.now() - retentionDays * 24*60*60*1000`).
* SQL result sets are lists of rows; `ORDER BY` is modelled as a stable
  insertion sort by the ordering key the query states; `LIMIT`/`OFFSET`
  as `take`/`drop`; `COUNT(*)` over the same `WHERE` clause as `length`
  of the same filter.
* `generateEventRef` (src/backend/src/types/index.ts) delegates to Node's
  `crypto.createHash('sha256')`; the hash core is embedded below following
  the SHA-256 standard (FIPS 180-4) which that library implements.
-/

namespace Sporaclet

/-- Row of the `events` table (src/backend/src/types/index.ts `Event`
plus the `is_archived` column added by migration 003). -/
structure Event where
  id : Nat
  event_ref : String
  sport : String
  league : String
  home_team : String
  away_team : String
  event_date : Int
  venue : Option String
  status : String
  created_at : Int
  updated_at : Int
  is_archived : Bool
  deriving Repr, DecidableEq

instance : Inhabited Event :=
  ⟨{ id := 0, event_ref := "", sport := "", league := "", home_team := "",
     away_team := "", event_date := 0, venue := none, status := "",
     created_at := 0, updated_at := 0, is_archived := false }⟩

/-- Row of the `predictions` table (src/backend/src/types/index.ts
`Prediction`; the `is_archived` column was dropped by migration 003). -/
structure Prediction where
  id : Nat
  event_id : Nat
  prediction_type : String
  predicted_value : String
  confidence_score : Rat
  reasoning : String
  model_version : String
  created_at : Int
  updated_at : Int
  deriving Repr, DecidableEq

instance : Inhabited Prediction :=
  ⟨{ id := 0, event_id := 0, prediction_type := "", predicted_value := "",
     confidence_score := 0, reasoning := "", model_version := "",
     created_at := 0, updated_at := 0 }⟩

/-! ### SHA-256 (FIPS 180-4), the hash behind `crypto.createHash('sha256')` -/

/-- Truncation to a 32-bit word. -/
def w32 (n : Nat) : Nat := n % 4294967296

/-- Right rotation of a 32-bit word. -/
def rotr32 (n x : Nat) : Nat := w32 ((x >>> n) ||| (x <<< (32 - n)))

/-- SHA-256 `Ch` function (bitwise choose). -/
def sha256Ch (x y z : Nat) : Nat := (x &&& y) ^^^ ((x ^^^ 4294967295) &&& z)

/-- SHA-256 `Maj` function (bitwise majority). -/
def sha256Maj (x y z : Nat) : Nat := (x &&& y) ^^^ (x &&& z) ^^^ (y &&& z)

/-- SHA-256 big sigma 0. -/
def bsig0 (x : Nat) : Nat := rotr32 2 x ^^^ rotr32 13 x ^^^ rotr32 22 x

/-- SHA-256 big sigma 1. -/
def bsig1 (x : Nat) : Nat := rotr32 6 x ^^^ rotr32 11 x ^^^ rotr32 25 x

/-- SHA-256 small sigma 0. -/
def ssig0 (x : Nat) : Nat := rotr32 7 x ^^^ rotr32 18 x ^^^ (x >>> 3)

/-- SHA-256 small sigma 1. -/
def ssig1 (x : Nat) : Nat := rotr32 17 x ^^^ rotr32 19 x ^^^ (x >>> 10)

/-- The eight 32-bit words of SHA-256 working state. -/
structure Sha256State where
  a : Nat
  b : Nat
  c : Nat
  d : Nat
  e : Nat
  f : Nat
  g : Nat
  h : Nat
  deriving Repr, DecidableEq

/-- SHA-256 initial hash value (the eight words of FIPS 180-4 §5.3.3,
written in decimal to match the `Nat` arithmetic used throughout). -/
def sha256H0 : Sha256State :=
  ⟨1779033703, 3144134277, 1013904242, 2773480762,
   1359893119, 2600822924, 528734635, 1541459225⟩

/-- SHA-256 round constants (FIPS 180-4 §4.2.2, in decimal). -/
def sha256K : List Nat :=
  [1116352408, 1899447441, 3049323471, 3921009573,
   961987163, 1508970993, 2453635748, 2870763221,
   3624381080, 310598401, 607225278, 1426881987,
   1925078388, 2162078206, 2614888103, 3248222580,
   3835390401, 4022224774, 264347078, 604807628,
   770255983, 1249150122, 1555081692, 1996064986,
   2554220882, 2821834349, 2952996808, 3210313671,
   3336571891, 3584528711, 113926993, 338241895,
   666307205, 773529912, 1294757372, 1396182291,
   1695183700, 1986661051, 2177026350, 2456956037,
   2730485921, 2820302411, 3259730800, 3345764771,
   3516065817, 3600352804, 4094571909, 275423344,
   430227734, 506948616, 659060556, 883997877,
   958139571, 1322822218, 1537002063, 1747873779,
   1955562222, 2024104815, 2227730452, 2361852424,
   2428436474, 2756734187, 3204031479, 3329325298]

/-- Big-endian packing of bytes into 32-bit words. -/
def bytesToWords : List Nat → List Nat
  | b0 :: b1 :: b2 :: b3 :: rest =>
      (((b0 * 256 + b1) * 256 + b2) * 256 + b3) :: bytesToWords rest
  | _ => []

/-- Extends the 16 words of a chunk to the 64-word message schedule. -/
def scheduleW (ws : List Nat) : List Nat :=
  (List.range 48).foldl
    (fun acc i =>
      acc ++ [w32 (ssig1 (acc.getD (i + 14) 0) + acc.getD (i + 9) 0 +
                   ssig0 (acc.getD (i + 1) 0) + acc.getD i 0)])
    ws

/-- One SHA-256 round, consuming a constant/schedule-word pair. -/
def sha256Round (s : Sha256State) (kw : Nat × Nat) : Sha256State :=
  let t1 := w32 (s.h + bsig1 s.e + sha256Ch s.e s.f s.g + kw.1 + kw.2)
  let t2 := w32 (bsig0 s.a + sha256Maj s.a s.b s.c)
  ⟨w32 (t1 + t2), s.a, s.b, s.c, w32 (s.d + t1), s.e, s.f, s.g⟩

/-- SHA-256 compression of a single 64-byte chunk. -/
def sha256Compress (s : Sha256State) (chunk : List Nat) : Sha256State :=
  let ws := scheduleW (bytesToWords chunk)
  let t := (sha256K.zip ws).foldl sha256Round s
  ⟨w32 (s.a + t.a), w32 (s.b + t.b), w32 (s.c + t.c), w32 (s.d + t.d),
   w32 (s.e + t.e), w32 (s.f + t.f), w32 (s.g + t.g), w32 (s.h + t.h)⟩

/-- Big-endian 8-byte encoding of the bit length. -/
def beBytes8 (n : Nat) : List Nat :=
  [(n >>> 56) % 256, (n >>> 48) % 256, (n >>> 40) % 256, (n >>> 32) % 256,
   (n >>> 24) % 256, (n >>> 16) % 256, (n >>> 8) % 256, n % 256]

/-- SHA-256 message padding: `0x80`, zeros to 56 mod 64, 8-byte bit length. -/
def sha256Pad (msg : List Nat) : List Nat :=
  let l := msg.length
  let z := (55 + 64 - (l % 64)) % 64
  msg ++ [128] ++ List.replicate z 0 ++ beBytes8 (8 * l)

/-- Folds the compression function over the given number of 64-byte blocks. -/
def sha256Blocks : Nat → List Nat → Sha256State → Sha256State
  | 0, _, s => s
  | n + 1, msg, s => sha256Blocks n (msg.drop 64) (sha256Compress s (msg.take 64))

/-- Big-endian bytes of a 32-bit word. -/
def wordBytes (w : Nat) : List Nat :=
  [(w >>> 24) % 256, (w >>> 16) % 256, (w >>> 8) % 256, w % 256]

/-- The 32-byte SHA-256 digest of a byte sequence. -/
def sha256Digest (msg : List Nat) : List Nat :=
  let padded := sha256Pad msg
  let s := sha256Blocks (padded.length / 64) padded sha256H0
  wordBytes s.a ++ wordBytes s.b ++ wordBytes s.c ++ wordBytes s.d ++
  wordBytes s.e ++ wordBytes s.f ++ wordBytes s.g ++ wordBytes s.h

/-- The sixteen lowercase hexadecimal digits. -/
def hexDigitChars : List Char := "0123456789abcdef".data

/-- Lowercase hex digit of `n mod 16`. -/
def hexChar (n : Nat) : Char := hexDigitChars.getD (n % 16) (Char.ofNat 48)

/-- Two lowercase hex digits of a byte. -/
def byteHex (b : Nat) : List Char := [hexChar (b / 16), hexChar b]

/-- Lowercase hex rendering of a byte sequence. -/
def bytesHex : List Nat → List Char
  | [] => []
  | b :: rest => byteHex b ++ bytesHex rest

/-- Lowercase hex SHA-256 digest, as `crypto.createHash('sha256')
 .update(data).digest('hex')` yields. -/
def sha256Hex (msg : List Nat) : String := String.mk (bytesHex (sha256Digest msg))

/-- UTF-8 bytes of a string (`crypto`'s default input encoding). -/
def utf8Bytes (s : String) : List Nat := s.toUTF8.toList.map (fun b => b.toNat)

/-- `generateEventRef` (src/backend/src/types/index.ts:85-94): SHA-256 hex
digest of the pipe-joined string `sport|homeTeam|awayTeam|isoTimestamp`.
The caller passes `eventDate.toISOString()`; here the ISO timestamp is the
`eventDateIso` argument. -/
def generateEventRef (sport homeTeam awayTeam eventDateIso : String) : String :=
  sha256Hex (utf8Bytes (sport ++ "|" ++ homeTeam ++ "|" ++ awayTeam ++ "|" ++ eventDateIso))

/-! ### Facts about the hex digest -/

theorem length_bytesHex (l : List Nat) : (bytesHex l).length = 2 * l.length := by
  induction l with
  | nil => rfl
  | cons b rest ih => simp [bytesHex, byteHex, ih]; omega

theorem sha256Digest_length (msg : List Nat) : (sha256Digest msg).length = 32 := by
  simp [sha256Digest, wordBytes]

theorem hexChar_mem (n : Nat) : hexChar n ∈ hexDigitChars := by
  have hlt : n % 16 < hexDigitChars.length := Nat.mod_lt n (by decide)
  rw [hexChar, List.getD_eq_getElem hexDigitChars (Char.ofNat 48) hlt]
  exact List.getElem_mem hlt

theorem bytesHex_mem {c : Char} {l : List Nat} (hc : c ∈ bytesHex l) :
    c ∈ hexDigitChars := by
  induction l with
  | nil => simp [bytesHex] at hc
  | cons b rest ih =>
      simp only [bytesHex, byteHex, List.cons_append, List.mem_cons,
        List.nil_append] at hc
      rcases hc with h | h | h
      · exact h ▸ hexChar_mem (b / 16)
      · exact h ▸ hexChar_mem b
      · exact ih h

theorem generateEventRef_length (sport homeTeam awayTeam iso : String) :
    (generateEventRef sport homeTeam awayTeam iso).length = 64 := by
  show (String.mk (bytesHex (sha256Digest _))).length = 64
  simp [String.length, length_bytesHex, sha256Digest_length]

/-- C5: `generateEventRef` is a pure deterministic function — equal inputs
give equal outputs — whose result is the SHA-256 digest of the pipe-joined
UTF-8 string `sport|homeTeam|awayTeam|isoTimestamp`, rendered as exactly 64
lowercase hexadecimal characters. -/
theorem generateEventRef_spec (sport homeTeam awayTeam iso : String) :
    (∀ s2 h2 a2 i2 : String, sport = s2 → homeTeam = h2 → awayTeam = a2 → iso = i2 →
        generateEventRef sport homeTeam awayTeam iso = generateEventRef s2 h2 a2 i2)
    ∧ generateEventRef sport homeTeam awayTeam iso
        = sha256Hex (utf8Bytes (sport ++ "|" ++ homeTeam ++ "|" ++ awayTeam ++ "|" ++ iso))
    ∧ (generateEventRef sport homeTeam awayTeam iso).length = 64
    ∧ (generateEventRef sport homeTeam awayTeam iso).data.all
        (fun c => hexDigitChars.contains c) = true := by
  refine ⟨?_, rfl, generateEventRef_length sport homeTeam awayTeam iso, ?_⟩
  · intro s2 h2 a2 i2 hs hh ha hi
    rw [hs, hh, ha, hi]
  · rw [List.all_eq_true]
    intro c hc
    have hmem : c ∈ bytesHex (sha256Digest
        (utf8Bytes (sport ++ "|" ++ homeTeam ++ "|" ++ awayTeam ++ "|" ++ iso))) := hc
    exact List.elem_eq_true_of_mem (bytesHex_mem hmem)

/-- Witness for C5 at a concrete input: the spec-example fixture
(`Football`, `Manchester United`, `Liverpool`, `2026-01-15T15:00:00.000Z`). -/
theorem generateEventRef_spec_witness :
    generateEventRef "Football" "Manchester United" "Liverpool" "2026-01-15T15:00:00.000Z"
      = generateEventRef "Football" "Manchester United" "Liverpool" "2026-01-15T15:00:00.000Z"
    ∧ (generateEventRef "Football" "Manchester United" "Liverpool" "2026-01-15T15:00:00.000Z").length = 64 := by
  have h := generateEventRef_spec "Football" "Manchester United" "Liverpool"
    "2026-01-15T15:00:00.000Z"
  exact ⟨h.1 "Football" "Manchester United" "Liverpool" "2026-01-15T15:00:00.000Z"
    rfl rfl rfl rfl, h.2.2.1⟩

/-! ### EventRepository.create (conflict-as-success insert) -/

/-- The caller-supplied columns of an event insert
(`Omit<Event, 'id' | 'created_at' | 'updated_at'>`; `is_archived` defaults
to false in the schema). -/
structure EventInput where
  event_ref : String
  sport : String
  league : String
  home_team : String
  away_team : String
  event_date : Int
  venue : Option String
  status : String
  deriving Repr, DecidableEq

/-- The stored row produced by a successful event insert: the input columns
plus the store-assigned id, timestamps, and the `is_archived` default. -/
def insertedEvent (i : EventInput) (newId : Nat) (now : Int) : Event :=
  { id := newId, event_ref := i.event_ref, sport := i.sport,
    league := i.league, home_team := i.home_team, away_team := i.away_team,
    event_date := i.event_date, venue := i.venue, status := i.status,
    created_at := now, updated_at := now, is_archived := false }

/-- `EventRepository.create`: `INSERT … ON CONFLICT (event_ref) DO NOTHING
RETURNING *`; when the insert returns no row the pre-existing row with the
same `event_ref` is fetched and returned. `newId` is the store-assigned
surrogate id, `now` the store-assigned creation timestamp. The function is
total: the conflict case is not an error path. -/
def createEvent (tbl : List Event) (i : EventInput) (newId : Nat) (now : Int) :
    List Event × Event :=
  match tbl.find? (fun e => e.event_ref == i.event_ref) with
  | some ex => (tbl, ex)
  | none => (tbl ++ [insertedEvent i newId now], insertedEvent i newId now)

/-- C1: event creation is conflict-as-success. If a row with the same
`event_ref` already exists, `create` returns that pre-existing row and
inserts nothing. Consequently two `create` calls whose inputs agree on
`(sport, home_team, away_team, event_date)` — with `event_ref` computed by
`generateEventRef` from those fields (`isoOf` models
`Date.prototype.toISOString`) — resolve to the same stored row: the second
call leaves the table unchanged and returns the row of the first. -/
theorem eventCreate_conflict_as_success
    (tbl : List Event) (i1 i2 : EventInput) (id1 id2 : Nat) (t1 t2 : Int)
    (isoOf : Int → String)
    (hsport : i1.sport = i2.sport) (hhome : i1.home_team = i2.home_team)
    (haway : i1.away_team = i2.away_team) (hdate : i1.event_date = i2.event_date)
    (href1 : i1.event_ref = generateEventRef i1.sport i1.home_team i1.away_team (isoOf i1.event_date))
    (href2 : i2.event_ref = generateEventRef i2.sport i2.home_team i2.away_team (isoOf i2.event_date)) :
    (∀ ex, tbl.find? (fun e => e.event_ref == i1.event_ref) = some ex →
        createEvent tbl i1 id1 t1 = (tbl, ex))
    ∧ (createEvent (createEvent tbl i1 id1 t1).1 i2 id2 t2).1
        = (createEvent tbl i1 id1 t1).1
    ∧ (createEvent (createEvent tbl i1 id1 t1).1 i2 id2 t2).2
        = (createEvent tbl i1 id1 t1).2 := by
  have href : i1.event_ref = i2.event_ref := by
    rw [href1, href2, hsport, hhome, haway, hdate]
  refine ⟨?_, ?_⟩
  · intro ex hex
    simp [createEvent, hex]
  · cases hfind : tbl.find? (fun e => e.event_ref == i1.event_ref) with
    | some ex =>
        have h1 : createEvent tbl i1 id1 t1 = (tbl, ex) := by
          simp [createEvent, hfind]
        have hfind2 : tbl.find? (fun e => e.event_ref == i2.event_ref) = some ex := by
          rw [← href]; exact hfind
        constructor
        · rw [h1]
          simp [createEvent, hfind2]
        · rw [h1]
          simp [createEvent, hfind2]
    | none =>
        have hfindnone2 : tbl.find? (fun e => e.event_ref == i2.event_ref) = none := by
          rw [← href]; exact hfind
        have h1 : createEvent tbl i1 id1 t1 =
            (tbl ++ [insertedEvent i1 id1 t1], insertedEvent i1 id1 t1) := by
          simp [createEvent, hfind]
        rw [h1]
        have hfind2 : (tbl ++ [insertedEvent i1 id1 t1]).find?
              (fun e => e.event_ref == i2.event_ref)
            = some (insertedEvent i1 id1 t1) := by
          rw [List.find?_append, hfindnone2]
          simp [List.find?, insertedEvent, href]
        constructor
        · simp [createEvent, hfind2]
        · simp [createEvent, hfind2]

/-- The spec-example creation fixture used by the C1 witness. -/
def fixtureInput : EventInput :=
  { event_ref := generateEventRef "Football" "Manchester United" "Liverpool"
      "2026-01-15T15:00:00.000Z",
    sport := "Football", league := "Premier League",
    home_team := "Manchester United", away_team := "Liverpool",
    event_date := 1768489200000, venue := some "Old Trafford",
    status := "SCHEDULED" }

/-- Witness for C1: creating the spec-example event twice on an empty table
leaves the second call with the first call's table and row. -/
theorem eventCreate_conflict_as_success_witness :
    (createEvent (createEvent [] fixtureInput 1 0).1 fixtureInput 2 5).1
        = (createEvent [] fixtureInput 1 0).1
    ∧ (createEvent (createEvent [] fixtureInput 1 0).1 fixtureInput 2 5).2
        = (createEvent [] fixtureInput 1 0).2 := by
  have h := eventCreate_conflict_as_success [] fixtureInput fixtureInput 1 2 0 5
    (fun _ => "2026-01-15T15:00:00.000Z") rfl rfl rfl rfl rfl rfl
  exact ⟨h.2.1, h.2.2⟩

/-! ### EventRepository.archiveOldEvents (the archival sweep) -/

/-- Milliseconds per day, as in `ArchiveService`'s cutoff computation. -/
def dayMs : Int := 86400000

/-- The `WHERE` clause of the archival `UPDATE`: currently unarchived and
`event_date` older than the cutoff. -/
def archiveEligible (cutoff : Int) (e : Event) : Bool :=
  !e.is_archived && decide (e.event_date < cutoff)

/-- `EventRepository.archiveOldEvents`: `UPDATE events SET is_archived = true
WHERE is_archived = false AND event_date < NOW() - INTERVAL 'd days'`,
returning the affected row count (`rowCount`). -/
def archiveOldEvents (now : Int) (retentionDays : Nat) (tbl : List Event) :
    List Event × Nat :=
  let cutoff := now - retentionDays * dayMs
  (tbl.map (fun e => if archiveEligible cutoff e then { e with is_archived := true } else e),
   tbl.countP (archiveEligible cutoff))

theorem archiveEligible_false_after (cutoff : Int) (e : Event) :
    archiveEligible cutoff
      (if archiveEligible cutoff e then { e with is_archived := true } else e) = false := by
  by_cases h : archiveEligible cutoff e = true
  · rw [if_pos h]
    simp [archiveEligible]
  · rw [if_neg h]
    simpa using h

theorem getD_map_ev (f : Event → Event) (l : List Event) (i : Nat)
    (hi : i < l.length) :
    (l.map f).getD i default = f (l.getD i default) := by
  rw [List.getD_eq_getElem _ _ (by simpa using hi), List.getD_eq_getElem _ _ hi,
    List.getElem_map]

/-- C2: the archival sweep flips `is_archived` to true for exactly the
currently-unarchived events whose `event_date` is older than
`now − retentionDays` days, leaves every other row unchanged, returns the
count of rows changed, and an immediate second call changes nothing and
returns 0. -/
theorem archiveOldEvents_spec (now : Int) (d : Nat) (tbl : List Event) :
    (archiveOldEvents now d tbl).1.length = tbl.length
    ∧ (∀ i, i < tbl.length →
        ((tbl.getD i default).is_archived = false ∧
            (tbl.getD i default).event_date < now - d * dayMs →
          (archiveOldEvents now d tbl).1.getD i default
            = { tbl.getD i default with is_archived := true })
        ∧ (¬((tbl.getD i default).is_archived = false ∧
              (tbl.getD i default).event_date < now - d * dayMs) →
          (archiveOldEvents now d tbl).1.getD i default = tbl.getD i default))
    ∧ (archiveOldEvents now d tbl).2
        = tbl.countP (archiveEligible (now - d * dayMs))
    ∧ archiveOldEvents now d (archiveOldEvents now d tbl).1
        = ((archiveOldEvents now d tbl).1, 0) := by
  refine ⟨by simp [archiveOldEvents], ?_, rfl, ?_⟩
  · intro i hi
    have hget : (archiveOldEvents now d tbl).1.getD i default
        = (if archiveEligible (now - d * dayMs) (tbl.getD i default) then
            { tbl.getD i default with is_archived := true }
          else tbl.getD i default) :=
      getD_map_ev _ tbl i hi
    constructor
    · intro hcond
      rw [hget, if_pos]
      simp only [archiveEligible, Bool.and_eq_true, Bool.not_eq_true',
        decide_eq_true_eq]
      exact hcond
    · intro hcond
      rw [hget, if_neg]
      intro helig
      apply hcond
      simp only [archiveEligible, Bool.and_eq_true, Bool.not_eq_true',
        decide_eq_true_eq] at helig
      exact helig
  · have hmap : ((archiveOldEvents now d tbl).1.map
        (fun e => if archiveEligible (now - d * dayMs) e then
          { e with is_archived := true } else e)) = (archiveOldEvents now d tbl).1 := by
      have : ∀ e ∈ (archiveOldEvents now d tbl).1,
          (if archiveEligible (now - d * dayMs) e then
            { e with is_archived := true } else e) = e := by
        intro e he
        simp only [archiveOldEvents, List.mem_map] at he
        obtain ⟨e0, _, he0⟩ := he
        rw [← he0, archiveEligible_false_after]
        simp
      calc (archiveOldEvents now d tbl).1.map
            (fun e => if archiveEligible (now - d * dayMs) e then
              { e with is_archived := true } else e)
          = (archiveOldEvents now d tbl).1.map id := List.map_congr_left this
        _ = (archiveOldEvents now d tbl).1 := List.map_id _
    have hcount : (archiveOldEvents now d tbl).1.countP
        (archiveEligible (now - d * dayMs)) = 0 := by
      rw [List.countP_eq_zero]
      intro e he
      simp only [archiveOldEvents, List.mem_map] at he
      obtain ⟨e0, _, he0⟩ := he
      rw [← he0]
      simp [archiveEligible_false_after]
    simp only [archiveOldEvents] at hmap hcount ⊢
    rw [hmap, hcount]

/-- An unarchived event strictly older than the retention cutoff, used by
the C2 witness. -/
def staleEvent : Event :=
  { id := 7, event_ref := "r7", sport := "Football", league := "EPL",
    home_team := "A", away_team := "B", event_date := 0, venue := none,
    status := "COMPLETED", created_at := 0, updated_at := 0,
    is_archived := false }

/-- Witness for C2 at a concrete table: the stale event gets archived and the
immediate re-run archives nothing. -/
theorem archiveOldEvents_spec_witness :
    (archiveOldEvents 100 0 [staleEvent]).1.getD 0 default
        = { staleEvent with is_archived := true }
    ∧ archiveOldEvents 100 0 (archiveOldEvents 100 0 [staleEvent]).1
        = ((archiveOldEvents 100 0 [staleEvent]).1, 0) := by
  have h := archiveOldEvents_spec 100 0 [staleEvent]
  refine ⟨?_, h.2.2.2⟩
  have h2 := (h.2.1 0 (by decide)).1 (by constructor <;> decide)
  simpa using h2

/-! ### Filtered, paginated listing (`findAll`) -/

/-- `PaginationParams` (src/backend/src/types/index.ts). -/
structure PaginationParams where
  page : Nat
  limit : Nat
  offset : Nat
  deriving Repr, DecidableEq

/-- `LIMIT limit OFFSET offset`. -/
def paginate (l : List α) (pg : PaginationParams) : List α :=
  (l.drop pg.offset).take pg.limit

/-- The `when` temporal-bucket filter of the events list. -/
inductive WhenFilter
  | upcoming
  | past
  | all
  deriving Repr, DecidableEq

/-- Filters accepted by `EventRepository.findAll`. `includePredictions` is
accepted by the signature but never used when building the query. -/
structure EventFilters where
  sport : Option String
  league : Option String
  team : Option String
  startDate : Option Int
  endDate : Option Int
  status : Option String
  whenF : WhenFilter
  includePredictions : Bool
  deriving Repr, DecidableEq

/-- Match of an optional exact-equality filter. -/
def optEq (o : Option String) (v : String) : Bool :=
  match o with
  | none => true
  | some s => v == s

/-- The `WHERE` clause built by `EventRepository.findAll`: always
`is_archived = false`, then each supplied filter ANDed on, then the `when`
bucket relative to `NOW()`. -/
def eventMatches (now : Int) (f : EventFilters) (e : Event) : Bool :=
  !e.is_archived
  && optEq f.sport e.sport
  && optEq f.league e.league
  && (match f.team with
      | none => true
      | some t => e.home_team == t || e.away_team == t)
  && (match f.startDate with
      | none => true
      | some d1 => decide (d1 ≤ e.event_date))
  && (match f.endDate with
      | none => true
      | some d2 => decide (e.event_date ≤ d2))
  && optEq f.status e.status
  && (match f.whenF with
      | .upcoming => decide (now ≤ e.event_date)
      | .past => decide (e.event_date < now)
      | .all => true)

/-- `ORDER BY e.event_date DESC` as a total order on rows. -/
def eventLeDesc (a b : Event) : Prop := b.event_date ≤ a.event_date

/-- `ORDER BY e.event_date ASC` as a total order on rows. -/
def eventLeAsc (a b : Event) : Prop := a.event_date ≤ b.event_date

instance : DecidableRel eventLeDesc := fun a b =>
  inferInstanceAs (Decidable (b.event_date ≤ a.event_date))

instance : DecidableRel eventLeAsc := fun a b =>
  inferInstanceAs (Decidable (a.event_date ≤ b.event_date))

instance : IsTotal Event eventLeDesc :=
  ⟨fun a b => le_total b.event_date a.event_date⟩

instance : IsTotal Event eventLeAsc :=
  ⟨fun a b => le_total a.event_date b.event_date⟩

instance : IsTrans Event eventLeDesc :=
  ⟨fun _ _ _ hab hbc => le_trans hbc hab⟩

instance : IsTrans Event eventLeAsc :=
  ⟨fun _ _ _ hab hbc => le_trans hab hbc⟩

/-- `EventRepository.findAll` (the full-revision event repository): filter,
count over the same `WHERE` clause, sort (`event_date ASC` for the
`upcoming` bucket, otherwise `event_date DESC`), then paginate. The lateral
join that decorates each row with its latest prediction neither filters nor
reorders rows and is omitted. -/
def eventsFindAll (now : Int) (evs : List Event) (f : EventFilters)
    (pg : PaginationParams) : List Event × Nat :=
  let rows := evs.filter (eventMatches now f)
  let sorted := match f.whenF with
    | .upcoming => rows.insertionSort eventLeAsc
    | .past => rows.insertionSort eventLeDesc
    | .all => rows.insertionSort eventLeDesc
  (paginate sorted pg, rows.length)

/-- Filters accepted by `PredictionRepository.findAll`. -/
structure PredFilters where
  sport : Option String
  league : Option String
  team : Option String
  startDate : Option Int
  endDate : Option Int
  predictionType : Option String
  minConfidence : Option Rat
  includeArchived : Bool
  deriving Repr, DecidableEq

/-- `FROM predictions p INNER JOIN events e ON p.event_id = e.id`, as the
list of matching row pairs. -/
def joinPE (evs : List Event) (ps : List Prediction) : List (Prediction × Event) :=
  ps.flatMap (fun p => (evs.filter (fun e => e.id == p.event_id)).map (fun e => (p, e)))

/-- The `WHERE` clause of `PredictionRepository.findAll`: when
`includeArchived` is not set, `e.is_archived = false` is ANDed on; then the
optional filters. -/
def predRowMatches (f : PredFilters) (r : Prediction × Event) : Bool :=
  (f.includeArchived || !r.2.is_archived)
  && optEq f.sport r.2.sport
  && optEq f.league r.2.league
  && (match f.team with
      | none => true
      | some t => r.2.home_team == t || r.2.away_team == t)
  && (match f.startDate with
      | none => true
      | some d1 => decide (d1 ≤ r.2.event_date))
  && (match f.endDate with
      | none => true
      | some d2 => decide (r.2.event_date ≤ d2))
  && optEq f.predictionType r.1.prediction_type
  && (match f.minConfidence with
      | none => true
      | some c => decide (c ≤ r.1.confidence_score))

/-- `ORDER BY e.event_date DESC, p.created_at DESC` as a total order on the
joined rows. -/
def predLe (a b : Prediction × Event) : Prop :=
  b.2.event_date < a.2.event_date
  ∨ (a.2.event_date = b.2.event_date ∧ b.1.created_at ≤ a.1.created_at)

instance : DecidableRel predLe := fun a b => by
  unfold predLe
  infer_instance

instance : IsTotal (Prediction × Event) predLe := by
  constructor
  intro a b
  unfold predLe
  omega

instance : IsTrans (Prediction × Event) predLe := by
  constructor
  intro a b c hab hbc
  unfold predLe at hab hbc ⊢
  omega

/-- `PredictionRepository.findAll`: join, filter, count over the same
`WHERE` clause, order by event date then prediction creation time (both
descending), paginate. The SQL projects the prediction columns of each
joined row; the model keeps the pair so the owning event row stays
visible. -/
def predFindAll (evs : List Event) (ps : List Prediction) (f : PredFilters)
    (pg : PaginationParams) : List (Prediction × Event) × Nat :=
  let rows := (joinPE evs ps).filter (predRowMatches f)
  (paginate (rows.insertionSort predLe) pg, rows.length)

/-! ### Route-level pagination parsing and validation -/

/-- JavaScript `v || d` over a `parseInt`/`parseFloat` result: `none`
models `NaN`; `0` is falsy and also falls back to the default. -/
def jsOrDefault (v : Option Int) (d : Int) : Int :=
  match v with
  | none => d
  | some x => if x = 0 then d else x

/-- `Math.max(1, parseInt(page, 10) || 1)`. -/
def pageNum (page : Option Int) : Int := max 1 (jsOrDefault page 1)

/-- `Math.min(100, Math.max(1, parseInt(limit, 10) || 20))`. -/
def limitNum (limit : Option Int) : Int := min 100 (max 1 (jsOrDefault limit 20))

/-- `offset = (pageNum - 1) * limitNum`. -/
def pageOffset (p l : Int) : Int := (p - 1) * l

/-- `Math.ceil(total / limit)` on naturals (`limit ≥ 1` at every call site). -/
def totalPages (total limit : Nat) : Nat := (total + limit - 1) / limit

/-- Parsed query parameters of `GET /api/predictions`. `page`/`limit` hold
the `parseInt` result (`none` models `NaN`); `minConfidence` is `some` when
the parameter is present and truthy, holding the `parseFloat` result
(`none` models `NaN`). -/
structure PredQuery where
  page : Option Int
  limit : Option Int
  predictionType : Option String
  minConfidence : Option (Option Rat)
  deriving Repr, DecidableEq

/-- The three accepted prediction types. -/
def validPredictionTypes : List String := ["WINNER", "SCORE", "OVER_UNDER"]

/-- Validation and pagination of the `GET /api/predictions` handler:
pagination is computed first and never raises; a 400 `AppError` is thrown
only for an unknown `predictionType` or an unparseable/out-of-range
`minConfidence`. Returns `(pageNum, limitNum, offset)` on success. -/
def predictionsListValidate (q : PredQuery) : Except String (Int × Int × Int) :=
  let p := pageNum q.page
  let l := limitNum q.limit
  if (match q.predictionType with
      | some t => !(validPredictionTypes.contains t)
      | none => false) then
    Except.error "Invalid prediction type"
  else if (match q.minConfidence with
      | some none => true
      | some (some c) => decide (c < 0) || decide ((100 : Rat) < c)
      | none => false) then
    Except.error "Invalid confidence score"
  else
    Except.ok (p, l, pageOffset p l)

/-! ### Listing facts: archived exclusion, ordering, pagination -/

theorem mem_paginate {l : List α} {pg : PaginationParams} {x : α}
    (h : x ∈ paginate l pg) : x ∈ l :=
  List.mem_of_mem_drop (List.mem_of_mem_take h)

theorem pairwise_paginate {r : α → α → Prop} {l : List α} {pg : PaginationParams}
    (h : List.Pairwise r l) : List.Pairwise r (paginate l pg) :=
  h.sublist ((List.take_sublist _ _).trans (List.drop_sublist _ _))

theorem eventsFindAll_mem {now : Int} {evs : List Event} {f : EventFilters}
    {pg : PaginationParams} {e : Event}
    (h : e ∈ (eventsFindAll now evs f pg).1) : eventMatches now f e = true := by
  unfold eventsFindAll at h
  have h2 := mem_paginate h
  have hmem : e ∈ evs.filter (eventMatches now f) := by
    cases hw : f.whenF <;> rw [hw] at h2 <;>
      rw [List.mem_insertionSort] at h2 <;> exact h2
  exact (List.mem_filter.mp hmem).2

theorem eventMatches_not_archived {now : Int} {f : EventFilters} {e : Event}
    (h : eventMatches now f e = true) : e.is_archived = false := by
  simp only [eventMatches, Bool.and_eq_true, Bool.not_eq_true'] at h
  exact h.1.1.1.1.1.1.1

theorem predFindAll_mem {evs : List Event} {ps : List Prediction}
    {f : PredFilters} {pg : PaginationParams} {r : Prediction × Event}
    (h : r ∈ (predFindAll evs ps f pg).1) : predRowMatches f r = true := by
  unfold predFindAll at h
  have h2 := mem_paginate h
  rw [List.mem_insertionSort] at h2
  exact (List.mem_filter.mp h2).2

/-- C10: `EventRepository.findAll` excludes archived events unconditionally:
whatever the filter inputs (sport, league, team, date range, status, `when`,
`includePredictions`) and pagination, every event on the returned page has
`is_archived = false`. -/
theorem events_unconditional_exclusion (now : Int) (evs : List Event)
    (f : EventFilters) (pg : PaginationParams) :
    ∀ e ∈ (eventsFindAll now evs f pg).1, e.is_archived = false :=
  fun _ he => eventMatches_not_archived (eventsFindAll_mem he)

/-- An unarchived fixture event for the listing witnesses. -/
def evA : Event :=
  { id := 1, event_ref := "rA", sport := "Football", league := "EPL",
    home_team := "A", away_team := "B", event_date := 5, venue := none,
    status := "SCHEDULED", created_at := 1, updated_at := 1,
    is_archived := false }

/-- The empty event filter set with the default `when = 'all'` bucket. -/
def f0 : EventFilters :=
  { sport := none, league := none, team := none, startDate := none,
    endDate := none, status := none, whenF := WhenFilter.all,
    includePredictions := true }

/-- Default route pagination: page 1, limit 20, offset 0. -/
def pg0 : PaginationParams := { page := 1, limit := 20, offset := 0 }

/-- Witness for C10: the fixture event appears on the default page and is
reported unarchived. -/
theorem events_unconditional_exclusion_witness : evA.is_archived = false :=
  events_unconditional_exclusion 0 [evA] f0 pg0 evA (by decide)

/-- C4: with `includeArchived` absent or false, every prediction returned by
`PredictionRepository.findAll` belongs to a non-archived event row, and
every event returned by `EventRepository.findAll` is non-archived; zero
archived rows are returned by default. -/
theorem default_excludes_archived :
    (∀ (evs : List Event) (ps : List Prediction) (f : PredFilters)
        (pg : PaginationParams), f.includeArchived = false →
        ∀ r ∈ (predFindAll evs ps f pg).1, r.2.is_archived = false)
    ∧ (∀ (now : Int) (evs : List Event) (f : EventFilters)
        (pg : PaginationParams),
        ∀ e ∈ (eventsFindAll now evs f pg).1, e.is_archived = false) := by
  constructor
  · intro evs ps f pg hinc r hr
    have h := predFindAll_mem hr
    simp only [predRowMatches, Bool.and_eq_true, Bool.or_eq_true,
      Bool.not_eq_true'] at h
    rcases h.1.1.1.1.1.1.1 with h1 | h1
    · rw [hinc] at h1
      exact absurd h1 (by decide)
    · exact h1
  · intro now evs f pg e he
    exact eventMatches_not_archived (eventsFindAll_mem he)

/-- An event row owning the fixture prediction. -/
def evB : Event :=
  { id := 2, event_ref := "rB", sport := "Football", league := "EPL",
    home_team := "C", away_team := "D", event_date := 9, venue := none,
    status := "SCHEDULED", created_at := 2, updated_at := 2,
    is_archived := false }

/-- A fixture prediction owned by `evB`. -/
def predA : Prediction :=
  { id := 1, event_id := 2, prediction_type := "WINNER",
    predicted_value := "C", confidence_score := 80, reasoning := "r",
    model_version := "m1", created_at := 3, updated_at := 3 }

/-- The empty prediction filter set with `includeArchived` unset. -/
def fP0 : PredFilters :=
  { sport := none, league := none, team := none, startDate := none,
    endDate := none, predictionType := none, minConfidence := none,
    includeArchived := false }

/-- Witness for C4: the fixture prediction row is returned and its owning
event is unarchived. -/
theorem default_excludes_archived_witness : (predA, evB).2.is_archived = false :=
  default_excludes_archived.1 [evB] [predA] fP0 pg0 rfl (predA, evB) (by decide)

/-- The ordering C6 claims for every list: event date descending with a
creation-time-descending tie-break. -/
def claimedOrder (a b : Event) : Prop :=
  b.event_date < a.event_date
  ∨ (a.event_date = b.event_date ∧ b.created_at ≤ a.created_at)

/-- Two events sharing an `event_date`, the earlier-created one first. -/
def evT1 : Event :=
  { id := 1, event_ref := "r1", sport := "Football", league := "EPL",
    home_team := "A", away_team := "B", event_date := 100, venue := none,
    status := "SCHEDULED", created_at := 10, updated_at := 10,
    is_archived := false }

/-- Same `event_date` as `evT1` but created later. -/
def evT2 : Event :=
  { id := 2, event_ref := "r2", sport := "Football", league := "EPL",
    home_team := "C", away_team := "D", event_date := 100, venue := none,
    status := "SCHEDULED", created_at := 20, updated_at := 20,
    is_archived := false }

/-- Counterexample to C6: `EventRepository.findAll` orders by `event_date`
alone (no `created_at` tie-break), so a page can hold two equal-date events
with creation times ascending, violating the claimed secondary descending
tie-break. -/
theorem listOrdering_counterexample :
    (eventsFindAll 0 [evT1, evT2] f0 pg0).1 = [evT1, evT2]
    ∧ ¬ List.Pairwise claimedOrder (eventsFindAll 0 [evT1, evT2] f0 pg0).1 := by
  have hpage : (eventsFindAll 0 [evT1, evT2] f0 pg0).1 = [evT1, evT2] := by decide
  refine ⟨hpage, ?_⟩
  rw [hpage]
  intro hp
  have hord := (List.pairwise_cons.mp hp).1 evT2 (by simp)
  rcases hord with h | h
  · exact absurd h (by decide)
  · exact absurd h.2 (by decide)

/-- C6 amended: prediction pages are ordered by event date descending with a
creation-time-descending tie-break; event pages are ordered by event date
alone — ascending for the `upcoming` bucket, descending otherwise — with no
creation-time tie-break. -/
theorem listOrdering_amended :
    (∀ (evs : List Event) (ps : List Prediction) (f : PredFilters)
        (pg : PaginationParams),
        List.Pairwise predLe ((predFindAll evs ps f pg).1))
    ∧ (∀ (now : Int) (evs : List Event) (f : EventFilters)
        (pg : PaginationParams), f.whenF = WhenFilter.upcoming →
        List.Pairwise eventLeAsc ((eventsFindAll now evs f pg).1))
    ∧ (∀ (now : Int) (evs : List Event) (f : EventFilters)
        (pg : PaginationParams), f.whenF ≠ WhenFilter.upcoming →
        List.Pairwise eventLeDesc ((eventsFindAll now evs f pg).1)) := by
  refine ⟨?_, ?_, ?_⟩
  · intro evs ps f pg
    exact pairwise_paginate (List.sorted_insertionSort predLe _)
  · intro now evs f pg hw
    unfold eventsFindAll
    rw [hw]
    exact pairwise_paginate (List.sorted_insertionSort eventLeAsc _)
  · intro now evs f pg hw
    unfold eventsFindAll
    cases hcase : f.whenF with
    | upcoming => exact absurd hcase hw
    | past => exact pairwise_paginate (List.sorted_insertionSort eventLeDesc _)
    | all => exact pairwise_paginate (List.sorted_insertionSort eventLeDesc _)

/-- The empty event filter set with the `upcoming` bucket. -/
def fUp : EventFilters := { f0 with whenF := WhenFilter.upcoming }

/-- Witness for the amended C6 on the fixtures. -/
theorem listOrdering_amended_witness :
    List.Pairwise predLe ((predFindAll [evB] [predA] fP0 pg0).1)
    ∧ List.Pairwise eventLeAsc ((eventsFindAll 0 [evA] fUp pg0).1)
    ∧ List.Pairwise eventLeDesc ((eventsFindAll 0 [evA] f0 pg0).1) :=
  ⟨listOrdering_amended.1 [evB] [predA] fP0 pg0,
   listOrdering_amended.2.1 0 [evA] fUp pg0 rfl,
   listOrdering_amended.2.2 0 [evA] f0 pg0 (by decide)⟩

/-- C3: route pagination arithmetic — `limit` clamped into `[1, 100]`,
`page` clamped to `≥ 1`, `offset = (page − 1) × limit` — the response's
`totalPages` is the ceiling of `total / limit` (characterized as the unique
`q` with `total ≤ q·limit < total + limit`), and each repository's `total`
is computed from the same filter predicate that every returned page row
satisfies. -/
theorem pagination_spec (page limit : Option Int) :
    1 ≤ limitNum limit ∧ limitNum limit ≤ 100 ∧ 1 ≤ pageNum page
    ∧ pageOffset (pageNum page) (limitNum limit)
        = (pageNum page - 1) * limitNum limit
    ∧ (∀ total l : Nat, 1 ≤ l →
        total ≤ totalPages total l * l ∧ totalPages total l * l < total + l)
    ∧ (∀ (evs : List Event) (ps : List Prediction) (f : PredFilters)
        (pg : PaginationParams),
        (predFindAll evs ps f pg).2
            = ((joinPE evs ps).filter (predRowMatches f)).length
        ∧ ∀ r ∈ (predFindAll evs ps f pg).1, predRowMatches f r = true)
    ∧ (∀ (now : Int) (evs : List Event) (f : EventFilters)
        (pg : PaginationParams),
        (eventsFindAll now evs f pg).2
            = (evs.filter (eventMatches now f)).length
        ∧ ∀ e ∈ (eventsFindAll now evs f pg).1, eventMatches now f e = true) := by
  refine ⟨le_min (by norm_num) (le_max_left 1 _), min_le_left _ _,
    le_max_left 1 _, rfl, ?_, ?_, ?_⟩
  · intro t l hl
    have h1 : l * totalPages t l + (t + l - 1) % l = t + l - 1 :=
      Nat.div_add_mod _ l
    have h2 : (t + l - 1) % l < l := Nat.mod_lt _ (by omega)
    constructor
    · rw [Nat.mul_comm]
      omega
    · rw [Nat.mul_comm]
      omega
  · intro evs ps f pg
    exact ⟨rfl, fun r hr => predFindAll_mem hr⟩
  · intro now evs f pg
    exact ⟨rfl, fun e he => eventsFindAll_mem he⟩

/-- Witness for C3: an out-of-range limit is clamped to 100; the spec
example 11 rows at limit 5 gives the ceiling bounds; the fixture page row
satisfies the count predicate. -/
theorem pagination_spec_witness :
    (1 ≤ limitNum (some 500) ∧ limitNum (some 500) ≤ 100)
    ∧ (11 ≤ totalPages 11 5 * 5 ∧ totalPages 11 5 * 5 < 11 + 5)
    ∧ eventMatches 0 f0 evA = true := by
  have h := pagination_spec none (some 500)
  exact ⟨⟨h.1, h.2.1⟩, h.2.2.2.2.1 11 5 (by decide),
    (h.2.2.2.2.2.2 0 [evA] f0 pg0).2 evA (by decide)⟩

/-- A list request whose `page` does not parse (`NaN`) and whose `limit`
parses to the non-positive integer 0. -/
def badQuery : PredQuery :=
  { page := none, limit := some 0, predictionType := none,
    minConfidence := none }

/-- Counterexample to C9: a request whose `page` does not parse as a
positive integer (and whose `limit` is 0) succeeds with the silently
defaulted pagination `(1, 20, 0)` instead of failing with a 400. -/
theorem pageLimit_coerced_counterexample :
    predictionsListValidate badQuery = Except.ok (1, 20, 0) := rfl

/-- C9 amended: the handler never rejects `page`/`limit` — unparseable or
non-positive values are silently defaulted (`page` to `max(1, parsed‖1)`,
`limit` to the default 20 then clamped into `[1, 100]`) — and a 400 arises
only from an invalid `predictionType` or `minConfidence`. -/
theorem pageLimit_validation_amended (q : PredQuery)
    (htype : (match q.predictionType with
        | some t => !(validPredictionTypes.contains t)
        | none => false) = false)
    (hconf : (match q.minConfidence with
        | some none => true
        | some (some c) => decide (c < 0) || decide ((100 : Rat) < c)
        | none => false) = false) :
    predictionsListValidate q
      = Except.ok (pageNum q.page, limitNum q.limit,
          pageOffset (pageNum q.page) (limitNum q.limit))
    ∧ 1 ≤ pageNum q.page ∧ 1 ≤ limitNum q.limit ∧ limitNum q.limit ≤ 100 := by
  refine ⟨?_, le_max_left 1 _, le_min (by norm_num) (le_max_left 1 _),
    min_le_left _ _⟩
  simp only [predictionsListValidate]
  rw [htype, hconf]
  rfl

/-- Witness for the amended C9: negative page and oversized limit with valid
`predictionType`/`minConfidence` yield the clamped pagination, no error. -/
theorem pageLimit_validation_amended_witness :
    predictionsListValidate
        { page := some (-5), limit := some 500,
          predictionType := some "WINNER", minConfidence := some (some 50) }
      = Except.ok (pageNum (some (-5)), limitNum (some 500),
          pageOffset (pageNum (some (-5))) (limitNum (some 500)))
    ∧ 1 ≤ pageNum (some (-5)) := by
  have h := pageLimit_validation_amended
    { page := some (-5), limit := some 500,
      predictionType := some "WINNER", minConfidence := some (some 50) }
    (by decide) (by decide)
  exact ⟨h.1, h.2.1⟩

/-! ### Partial update (`EventRepository.update`, `PredictionRepository.update`) -/

/-- A `Partial<Event>` update payload: `some` models a provided field.
`id`, `created_at` and `updated_at` are skipped by the repository's field
loop and so are not part of the payload. A provided `venue` may be `null`
(`some none`). -/
structure EventPatch where
  event_ref : Option String
  sport : Option String
  league : Option String
  home_team : Option String
  away_team : Option String
  event_date : Option Int
  venue : Option (Option String)
  status : Option String
  is_archived : Option Bool
  deriving Repr, DecidableEq

/-- `fields.length === 0`: no updatable field was provided. -/
def EventPatch.isEmpty (p : EventPatch) : Bool :=
  p.event_ref.isNone && p.sport.isNone && p.league.isNone && p.home_team.isNone
  && p.away_team.isNone && p.event_date.isNone && p.venue.isNone
  && p.status.isNone && p.is_archived.isNone

/-- `SET` clause application: provided fields overwrite, the store refreshes
`updated_at`. -/
def applyEventPatch (p : EventPatch) (e : Event) (now : Int) : Event :=
  { e with
    event_ref := p.event_ref.getD e.event_ref,
    sport := p.sport.getD e.sport,
    league := p.league.getD e.league,
    home_team := p.home_team.getD e.home_team,
    away_team := p.away_team.getD e.away_team,
    event_date := p.event_date.getD e.event_date,
    venue := p.venue.getD e.venue,
    status := p.status.getD e.status,
    is_archived := p.is_archived.getD e.is_archived,
    updated_at := now }

/-- `EventRepository.update`: with no provided fields it returns `null`
without touching the table; otherwise `UPDATE events SET … WHERE id = $n
RETURNING *`, whose result row is `null` when no row has the id. -/
def updateEvent (tbl : List Event) (id : Nat) (p : EventPatch) (now : Int) :
    List Event × Option Event :=
  if p.isEmpty then (tbl, none)
  else
    (tbl.map (fun e => if e.id == id then applyEventPatch p e now else e),
     (tbl.find? (fun e => e.id == id)).map (fun e => applyEventPatch p e now))

/-- A `Partial<Prediction>` update payload (again minus `id`, `created_at`,
`updated_at`). -/
structure PredictionPatch where
  event_id : Option Nat
  prediction_type : Option String
  predicted_value : Option String
  confidence_score : Option Rat
  reasoning : Option String
  model_version : Option String
  deriving Repr, DecidableEq

/-- `fields.length === 0` for a prediction update. -/
def PredictionPatch.isEmpty (p : PredictionPatch) : Bool :=
  p.event_id.isNone && p.prediction_type.isNone && p.predicted_value.isNone
  && p.confidence_score.isNone && p.reasoning.isNone && p.model_version.isNone

/-- `SET` clause application for predictions. -/
def applyPredictionPatch (p : PredictionPatch) (r : Prediction) (now : Int) :
    Prediction :=
  { r with
    event_id := p.event_id.getD r.event_id,
    prediction_type := p.prediction_type.getD r.prediction_type,
    predicted_value := p.predicted_value.getD r.predicted_value,
    confidence_score := p.confidence_score.getD r.confidence_score,
    reasoning := p.reasoning.getD r.reasoning,
    model_version := p.model_version.getD r.model_version,
    updated_at := now }

/-- `PredictionRepository.update`, same shape as the event update. -/
def updatePrediction (tbl : List Prediction) (id : Nat) (p : PredictionPatch)
    (now : Int) : List Prediction × Option Prediction :=
  if p.isEmpty then (tbl, none)
  else
    (tbl.map (fun r => if r.id == id then applyPredictionPatch p r now else r),
     (tbl.find? (fun r => r.id == id)).map (fun r => applyPredictionPatch p r now))

/-- The update payload with no provided fields. -/
def emptyEventPatch : EventPatch :=
  { event_ref := none, sport := none, league := none, home_team := none,
    away_team := none, event_date := none, venue := none, status := none,
    is_archived := none }

/-- The prediction update payload with no provided fields. -/
def emptyPredictionPatch : PredictionPatch :=
  { event_id := none, prediction_type := none, predicted_value := none,
    confidence_score := none, reasoning := none, model_version := none }

/-- Counterexample to C7: updating an existing row with an empty field set
returns `null`, not the current stored record. -/
theorem emptyUpdate_counterexample :
    updateEvent [evA] 1 emptyEventPatch 9 = ([evA], none)
    ∧ (updateEvent [evA] 1 emptyEventPatch 9).2 ≠ some evA := by
  constructor
  · rfl
  · intro h
    simp [updateEvent, emptyEventPatch, EventPatch.isEmpty] at h

/-- C7 amended: an update with no provided fields is a no-op on the table
but returns `null` (not the current record), for events and predictions
alike. -/
theorem emptyUpdate_amended (tblE : List Event) (idE : Nat) (pE : EventPatch)
    (nowE : Int) (tblP : List Prediction) (idP : Nat) (pP : PredictionPatch)
    (nowP : Int) (hE : pE.isEmpty = true) (hP : pP.isEmpty = true) :
    updateEvent tblE idE pE nowE = (tblE, none)
    ∧ updatePrediction tblP idP pP nowP = (tblP, none) := by
  constructor
  · simp [updateEvent, hE]
  · simp [updatePrediction, hP]

/-- Witness for the amended C7 at concrete tables and empty payloads. -/
theorem emptyUpdate_amended_witness :
    updateEvent [evA] 1 emptyEventPatch 9 = ([evA], none)
    ∧ updatePrediction [predA] 1 emptyPredictionPatch 9 = ([predA], none) :=
  emptyUpdate_amended [evA] 1 emptyEventPatch 9 [predA] 1 emptyPredictionPatch 9
    (by decide) (by decide)

/-! ### Batch ingestion (`DataIngestionService.loadEvents`) -/

/-- A participant entry of an ingested event record. -/
structure Participant where
  name : String
  role : Option String
  deriving Repr, DecidableEq

/-- An event record of the ingestion file (`EventData`): `event_ref` is a
required field of the input file; the remaining fields are optional
aliases. -/
structure EventData where
  event_ref : String
  sport_type : Option String
  league : Option String
  home_team : Option String
  away_team : Option String
  event_date : Option String
  scheduled_at : Option String
  participants : Option (List Participant)
  event_name : Option String
  location : Option String
  venue : Option String
  event_status : Option String
  status : Option String
  deriving Repr, DecidableEq

/-- Home-team alias reconciliation: explicit field, participant with role
`home`, first participant, or the left half of an `A vs B` event name. -/
def ingestHomeTeam (r : EventData) : String :=
  (((r.home_team.or
      ((r.participants.bind
        (fun l => l.find? (fun p => (p.role.getD "").toLower == "home"))).map
          Participant.name)).or
      ((r.participants.bind (fun l => l[0]?)).map Participant.name)).or
      (r.event_name.bind (fun n => (n.splitOn " vs ")[0]?))).getD "unknown"

/-- Away-team alias reconciliation, mirroring `ingestHomeTeam`. -/
def ingestAwayTeam (r : EventData) : String :=
  (((r.away_team.or
      ((r.participants.bind
        (fun l => l.find? (fun p => (p.role.getD "").toLower == "away"))).map
          Participant.name)).or
      ((r.participants.bind (fun l => l[1]?)).map Participant.name)).or
      (r.event_name.bind (fun n => (n.splitOn " vs ")[1]?))).getD "unknown"

/-- Status reconciliation: explicit `status`, else `event_status` with
`upcoming` mapped to `SCHEDULED` and anything else upper-cased, else
`SCHEDULED`. -/
def ingestStatus (r : EventData) : String :=
  r.status.getD
    (match r.event_status with
     | some es => if es.toLower == "upcoming" then "SCHEDULED" else es.toUpper
     | none => "SCHEDULED")

/-- The per-record body of `DataIngestionService.loadEvents`: parse the date
(`scheduled_at ?? event_date ?? ''`; `parseDate` models the external
JavaScript `Date` parser, `none` meaning `NaN`), skip the record when it is
invalid, reconcile the field aliases, and build the insert input passed to
`EventRepository.create`. The `event_ref` column is taken verbatim from the
input record — the `generateEventRef` call present in an earlier revision
is commented out in the source. -/
def ingestEventInput (parseDate : String → Option Int) (r : EventData) :
    Option EventInput :=
  match parseDate ((r.scheduled_at.or r.event_date).getD "") with
  | none => none
  | some d =>
      let leagueRaw := ((r.league.or r.location).or r.event_name).getD ""
      some { event_ref := r.event_ref,
             sport := r.sport_type.getD "unknown",
             league := if leagueRaw.isEmpty then "NA" else leagueRaw,
             home_team := ingestHomeTeam r,
             away_team := ingestAwayTeam r,
             event_date := d,
             venue := r.venue.or r.location,
             status := ingestStatus r }

/-- A well-formed input record whose `event_ref` field is not a SHA-256
digest of its attributes. -/
def sampleRecord : EventData :=
  { event_ref := "deadbeef", sport_type := some "Football",
    league := some "EPL", home_team := some "A", away_team := some "B",
    event_date := none, scheduled_at := some "2026-01-15T15:00:00Z",
    participants := none, event_name := none, location := none,
    venue := none, event_status := none, status := none }

/-- A date parser accepting the sample timestamp. -/
def sampleParseDate : String → Option Int := fun _ => some 1768489200000

/-- C8 is violated by the code (contradicting both the spec and the
repository's own `EVENT_REF_IMPLEMENTATION.md`): the ingestion layer does
not compute the identity hash — it copies the input file's `event_ref`
verbatim into the stored row. On the sample record the stored `event_ref`
is the 8-character input string `deadbeef`, which cannot equal any
`generateEventRef` output (those are 64 characters). -/
theorem ingest_ref_copied :
    (ingestEventInput sampleParseDate sampleRecord).map EventInput.event_ref
        = some "deadbeef"
    ∧ ∀ iso : String, "deadbeef" ≠ generateEventRef "Football" "A" "B" iso := by
  constructor
  · rfl
  · intro iso h
    have h64 := generateEventRef_length "Football" "A" "B" iso
    rw [← h] at h64
    exact absurd h64 (by decide)

end Sporaclet
